import Mathlib

/-!
# Verification of the crypto trading engine core

Shallow embedding, in Lean 4, of the core decision and bookkeeping logic of
the repository (pattern memory, trade gate, risk engine, position ledger),
together with theorems settling the specification's claims about it.

Modelling conventions:
* Python floats are modelled as rationals (`ℚ`); arithmetic is exact.
* Python dicts keyed by strings are modelled as association lists
  (insertion order preserved, first occurrence wins on lookup), and the
  pattern-memory dict keyed by `frozenset` is modelled as a function
  `Finset String → Option PatternStats` (a `frozenset` of strings compares by
  extensional set equality, which is exactly `Finset` equality).
* Timestamp fields (`datetime.now()` bookkeeping) carry no information used by
  any claim and are omitted from the records.
-/

namespace TradingBot

/-- Statistics kept per pattern in `TradingBot.pattern_memory`
(`src/src/core/trading_bot.py`): the dict
`{'wins': …, 'losses': …, 'consecutive_losses': …, 'last_results': […]}`. -/
structure PatternStats where
  wins : Nat
  losses : Nat
  consecutive_losses : Nat
  last_results : List ℚ
deriving DecidableEq

/-- The zero-initialized stats dict created on first observation of a pattern. -/
def pattern_memory_init_stats : PatternStats :=
  { wins := 0, losses := 0, consecutive_losses := 0, last_results := [] }

/-- `self.pattern_memory`: a dict from frozenset-of-signals to stats, modelled
as a partial map. -/
def PatternMemory : Type := Finset String → Option PatternStats

/-- The empty `pattern_memory` dict (`TradingBot.__init__`). -/
def empty_pattern_memory : PatternMemory := fun _ => none

/-- `self.min_signals = 3` (`TradingBot.__init__`). -/
def min_signals : Nat := 3

/-- `self.min_win_rate = 0.5` (`TradingBot.__init__`). -/
def min_win_rate : ℚ := 1 / 2

/-- `TradingBot.identify_pattern`: `frozenset(sorted(signals))`. A `frozenset`
of strings is determined by which strings belong to it, so the Pattern key is
the `Finset` of the list's elements. -/
def identify_pattern (signals : List String) : Finset String :=
  signals.toFinset

/-- The mutation `TradingBot.update_pattern_memory` performs on the stats dict
of one pattern: branch on `result > 0`, then append `result` to
`last_results` and `pop(0)` when the length exceeds 5. -/
def record_result (st : PatternStats) (result : ℚ) : PatternStats :=
  let st1 :=
    if 0 < result then
      { st with wins := st.wins + 1, consecutive_losses := 0 }
    else
      { st with losses := st.losses + 1,
                consecutive_losses := st.consecutive_losses + 1 }
  let appended := st1.last_results ++ [result]
  { st1 with last_results := if 5 < appended.length then appended.tail else appended }

/-- `TradingBot.update_pattern_memory pattern result`: inserts the
zero-initialized stats dict if the pattern is absent, then mutates it via
`record_result`. -/
def update_pattern_memory (mem : PatternMemory) (pattern : Finset String)
    (result : ℚ) : PatternMemory :=
  fun q =>
    if q = pattern then
      some (record_result ((mem pattern).getD pattern_memory_init_stats) result)
    else mem q

/-- Recording a whole sequence of outcomes for one pattern, first to last. -/
def record_outcomes (mem : PatternMemory) (pattern : Finset String)
    (results : List ℚ) : PatternMemory :=
  results.foldl (fun m r => update_pattern_memory m pattern r) mem

/-- `TradingBot.should_execute_trade`, with the bot's signal list and pattern
memory made explicit: reject below `min_signals`; for a known pattern with at
least 3 recorded trades reject on low win rate or on 2 consecutive losses;
otherwise approve. -/
def should_execute_trade (mem : PatternMemory) (current_signals : List String) : Bool :=
  if current_signals.length < min_signals then
    false
  else
    match mem (identify_pattern current_signals) with
    | none => true
    | some stats =>
        let total_trades := stats.wins + stats.losses
        if 3 ≤ total_trades then
          let win_rate : ℚ := (stats.wins : ℚ) / ((total_trades : Nat) : ℚ)
          if win_rate < min_win_rate then false
          else if 2 ≤ stats.consecutive_losses then false
          else true
        else true

end TradingBot

/-- Order side. The Python code branches on `side == 'BUY'` and treats every
other string as the sell side, so two constructors suffice. -/
inductive Side where
  | BUY : Side
  | SELL : Side
deriving DecidableEq

namespace RiskManager

/-- `self.max_total_risk = 0.05` (`RiskManager.__init__`,
`src/src/trading/risk_manager.py`). -/
def max_total_risk : ℚ := 5 / 100

/-- `self.max_position_size = 0.02` (`RiskManager.__init__`). -/
def max_position_size : ℚ := 2 / 100

/-- `Decimal(str(x)).quantize(Decimal('0.00001'), rounding=ROUND_DOWN)`:
rounding toward zero at the fifth decimal. -/
def quantize_round_down (x : ℚ) : ℚ :=
  if 0 ≤ x then (⌊x * 100000⌋ : ℚ) / 100000 else (⌈x * 100000⌉ : ℚ) / 100000

/-- `RiskManager.calculate_position_size`. The only piece of mutable state the
formula reads is `self.risk_metrics['win_rate']` (initialized to `0.0`), made
an explicit argument here. -/
def calculate_position_size (win_rate : ℚ) (capital signal_strength volatility
    current_exposure : ℚ) : ℚ :=
  let base_size := capital * (1 / 100)
  let signal_multiplier := 1 / 2 + |signal_strength|
  let volatility_multiplier := max (1 / 2) (min 1 (1 - volatility * 2))
  let exposure_multiplier := max 0 (min 1 (1 - current_exposure / max_total_risk))
  let win_rate_multiplier := if 0 < win_rate then min (12 / 10) win_rate else 1
  let position_size := base_size * signal_multiplier * volatility_multiplier *
    exposure_multiplier * win_rate_multiplier
  quantize_round_down (min position_size (capital * max_position_size))

/-- Clamp of `x` into `[lo, hi]`, the spec's reading of the code's
`max(lo, min(hi, x))` dampeners. -/
def clampQ (lo hi x : ℚ) : ℚ := max lo (min hi x)

/-- The dict returned by `RiskManager.calculate_stop_loss`. -/
structure StopLevels where
  stop_loss : ℚ
  emergency_stop : ℚ
  take_profit : ℚ
  trailing_step : ℚ
deriving DecidableEq

/-- `RiskManager.calculate_stop_loss entry_price volatility atr side`. -/
def calculate_stop_loss (entry_price volatility atr : ℚ) (side : Side) : StopLevels :=
  let base_stop := atr * 2
  let volatility_adjustment := 1 + volatility
  let adjusted_stop := base_stop * volatility_adjustment
  match side with
  | Side.BUY =>
      { stop_loss := entry_price - adjusted_stop
        emergency_stop := entry_price - adjusted_stop * (3 / 2)
        take_profit := entry_price + adjusted_stop * 2
        trailing_step := base_stop * (1 / 2) }
  | Side.SELL =>
      { stop_loss := entry_price + adjusted_stop
        emergency_stop := entry_price + adjusted_stop * (3 / 2)
        take_profit := entry_price - adjusted_stop * 2
        trailing_step := base_stop * (1 / 2) }

end RiskManager

namespace RiskManagement

/-- The fields of the position dict that `RiskManagement.check_position`
(`src/src/trading/risk_management.py`) reads. `current_price` comes from
`position.get('current_price')`, so it may be absent; Python additionally
treats a price of `0.0` as missing (`if not current_price`). -/
structure CheckedPosition where
  side : Side
  stop_loss : ℚ
  take_profit : ℚ
  current_price : Option ℚ
deriving DecidableEq

/-- The `{'should_close': …, 'reason': …}` dict returned by `check_position`. -/
structure CheckResult where
  should_close : Bool
  reason : Option String
deriving DecidableEq

/-- `RiskManagement.check_position`: stop loss is tested before take profit on
both sides; a missing or falsy (`0.0`) current price short-circuits to
"do not close". -/
def check_position (position : CheckedPosition) : CheckResult :=
  match position.current_price with
  | none => { should_close := false, reason := none }
  | some current_price =>
      if current_price = 0 then { should_close := false, reason := none }
      else
        match position.side with
        | Side.BUY =>
            if current_price ≤ position.stop_loss then
              { should_close := true, reason := some "Stop Loss atingido" }
            else if position.take_profit ≤ current_price then
              { should_close := true, reason := some "Take Profit atingido" }
            else { should_close := false, reason := none }
        | Side.SELL =>
            if position.stop_loss ≤ current_price then
              { should_close := true, reason := some "Stop Loss atingido" }
            else if current_price ≤ position.take_profit then
              { should_close := true, reason := some "Take Profit atingido" }
            else { should_close := false, reason := none }

end RiskManagement

namespace PortfolioManager

/-- One entry of `self.positions` in `PortfolioManager`
(`src/src/portfolio/portfolio_manager.py`). The `entry_time` / `last_update`
timestamps are omitted (no claim depends on them). -/
structure PMPosition where
  amount : ℚ
  entry_price : ℚ
  current_price : ℚ
  side : String
  leverage : ℚ
  value : ℚ
  unrealized_pnl : ℚ
  realized_pnl : ℚ
  status : String
deriving DecidableEq

/-- `self.metrics` as maintained by `_update_portfolio_metrics`. -/
structure PMMetrics where
  total_value : ℚ
  total_unrealized_pnl : ℚ
  total_pnl : ℚ
  position_count : Nat
deriving DecidableEq

/-- The state of a `PortfolioManager`. `positions` is the Python dict,
modelled as an insertion-ordered association list with unique keys. -/
structure State where
  positions : List (String × PMPosition)
  balance : ℚ
  total_pnl : ℚ
  metrics : PMMetrics
deriving DecidableEq

/-- Dict lookup: `self.positions[symbol]` / `symbol in self.positions`. -/
def lookupPos (d : List (String × PMPosition)) (k : String) : Option PMPosition :=
  (d.find? (fun e => e.1 == k)).map Prod.snd

/-- Dict write `self.positions[symbol] = v`: replace in place when the key is
present, append otherwise. -/
def dictInsert : List (String × PMPosition) → String → PMPosition →
    List (String × PMPosition)
  | [], k, v => [(k, v)]
  | e :: es, k, v => if e.1 = k then (k, v) :: es else e :: dictInsert es k v

/-- The placeholder entry `PortfolioManager.__init__` stores under `'BTC'`
("Inicializa com uma posição vazia para evitar o erro"). -/
def init_btc_position : PMPosition :=
  { amount := 0, entry_price := 0, current_price := 0, side := "long",
    leverage := 1, value := 0, unrealized_pnl := 0, realized_pnl := 0,
    status := "open" }

/-- The state built by `PortfolioManager.__init__`: zero balance and PnL, the
metrics dict zeroed, and the positions dict already holding the `'BTC'`
placeholder. -/
def init : State :=
  { positions := [("BTC", init_btc_position)]
    balance := 0
    total_pnl := 0
    metrics := { total_value := 0, total_unrealized_pnl := 0, total_pnl := 0,
                 position_count := 0 } }

/-- `PortfolioManager.update_balance amount`: adds `amount` to the balance. -/
def update_balance (pm : State) (amount : ℚ) : State :=
  { pm with balance := pm.balance + amount }

/-- The fields of the dict returned by `PortfolioManager.get_portfolio_status`
(the `timestamp` field is omitted). -/
structure PortfolioStatus where
  positions : List (String × PMPosition)
  balance : ℚ
  total_pnl : ℚ
  total_value : ℚ
  position_count : Nat
deriving DecidableEq

/-- `PortfolioManager.get_portfolio_status`. -/
def get_portfolio_status (pm : State) : PortfolioStatus :=
  { positions := pm.positions
    balance := pm.balance
    total_pnl := pm.total_pnl
    total_value := pm.balance + (pm.positions.map (fun e => e.2.value)).sum
    position_count := pm.positions.length }

/-- `PortfolioManager.add_position symbol amount entry_price side leverage`.
Returns the new state and the Python return value. The size check divides by
`self.balance`; when the balance is zero Python raises `ZeroDivisionError`,
which the surrounding `except` turns into `return False` before any mutation —
modelled by the explicit `balance = 0` branch. -/
def add_position (pm : State) (symbol : String) (amount entry_price : ℚ)
    (side : String) (leverage : ℚ) : State × Bool :=
  if 3 ≤ pm.positions.length then (pm, false)
  else
    let position_value := amount * entry_price
    if pm.balance = 0 then (pm, false)
    else if 1 / 10 < position_value / pm.balance then (pm, false)
    else if 1 < leverage then (pm, false)
    else
      ({ pm with
          positions := dictInsert pm.positions symbol
            { amount := amount, entry_price := entry_price,
              current_price := entry_price, side := side, leverage := leverage,
              value := position_value, unrealized_pnl := 0, realized_pnl := 0,
              status := "open" } },
        true)

/-- The update `PortfolioManager.update_position` (and the known-symbol branch
of `update_positions`) applies to one position dict at a new price. -/
def reprice (position : PMPosition) (current_price : ℚ) : PMPosition :=
  let pnl :=
    if position.side == "long" then
      (current_price - position.entry_price) * position.amount
    else
      (position.entry_price - current_price) * position.amount
  { position with
      current_price := current_price
      value := position.amount * current_price
      unrealized_pnl := pnl * position.leverage }

/-- `PortfolioManager.update_position symbol current_price`: no-op when the
symbol has no entry. -/
def update_position (pm : State) (symbol : String) (current_price : ℚ) : State :=
  match lookupPos pm.positions symbol with
  | none => pm
  | some position =>
      { pm with positions := dictInsert pm.positions symbol (reprice position current_price) }

/-- The placeholder entry `update_positions` creates for a symbol that has no
position (`amount 0.0`, entry price and current price both set from the tick). -/
def placeholder_position (entry_price current_price : ℚ) : PMPosition :=
  { amount := 0, entry_price := entry_price, current_price := current_price,
    side := "long", leverage := 1, value := 0, unrealized_pnl := 0,
    realized_pnl := 0, status := "open" }

/-- `PortfolioManager._update_portfolio_metrics`. -/
def update_portfolio_metrics (pm : State) : State :=
  let total_value := (pm.positions.map (fun e => e.2.value)).sum
  let total_unrealized_pnl := (pm.positions.map (fun e => e.2.unrealized_pnl)).sum
  { pm with
      metrics := { total_value := total_value
                   total_unrealized_pnl := total_unrealized_pnl
                   total_pnl := pm.total_pnl + total_unrealized_pnl
                   position_count := pm.positions.length } }

/-- The body of the `for symbol, price in current_prices.items()` loop of
`update_positions`: unknown symbols get a placeholder entry, known symbols are
repriced. -/
def update_positions_step (pm : State) (symbol : String) (price : ℚ) : State :=
  match lookupPos pm.positions symbol with
  | none =>
      { pm with positions := dictInsert pm.positions symbol (placeholder_position price price) }
  | some position =>
      { pm with positions := dictInsert pm.positions symbol (reprice position price) }

/-- `PortfolioManager.update_positions current_prices` (prices as an
insertion-ordered dict): returns unchanged on an empty dict, seeds a zeroed
`'BTC'` entry (current price taken from the first tick) when the positions
dict is empty, runs the per-symbol loop, then refreshes the metrics. -/
def update_positions (pm : State) (current_prices : List (String × ℚ)) : State :=
  match current_prices with
  | [] => pm
  | (_, price0) :: _ =>
      let pm :=
        if pm.positions.isEmpty then
          { pm with positions := [("BTC", placeholder_position 0 price0)] }
        else pm
      let pm := current_prices.foldl (fun acc sp => update_positions_step acc sp.1 sp.2) pm
      update_portfolio_metrics pm

end PortfolioManager

/-!
## Theorems settling the claims
-/

/-- Claim C4: `TradingBot.identify_pattern` is a pure, order-independent,
duplicate-insensitive canonicalization: permuting the signal list, or removing
duplicates from it, yields the identical Pattern key. -/
theorem identify_pattern_canonical :
    (∀ l1 l2 : List String, l1.Perm l2 →
      TradingBot.identify_pattern l1 = TradingBot.identify_pattern l2) ∧
    (∀ l : List String,
      TradingBot.identify_pattern l.dedup = TradingBot.identify_pattern l) := by
  constructor
  · intro l1 l2 h
    exact List.toFinset_eq_of_perm _ _ h
  · intro l
    apply List.toFinset.ext
    intro x
    exact List.mem_dedup

/-- Witness for C4 at a concrete pair of signal lists. -/
theorem identify_pattern_canonical_witness :
    TradingBot.identify_pattern ["MACD_POSITIVO", "TENDENCIA_ALTA"] =
      TradingBot.identify_pattern ["TENDENCIA_ALTA", "MACD_POSITIVO"] :=
  identify_pattern_canonical.1 _ _ (by decide)

/-- Claim C5: `RiskManager.calculate_stop_loss` always satisfies the 2:1
reward-to-risk relation: on the BUY side `takeProfit - entry` equals
`2 * (entry - stopLoss)`, and on the SELL side `entry - takeProfit` equals
`2 * (stopLoss - entry)` (exactly, in the rational model). -/
theorem calculate_stop_loss_reward_risk (entry volatility atr : ℚ) :
    ((RiskManager.calculate_stop_loss entry volatility atr Side.BUY).take_profit - entry =
      2 * (entry - (RiskManager.calculate_stop_loss entry volatility atr Side.BUY).stop_loss)) ∧
    (entry - (RiskManager.calculate_stop_loss entry volatility atr Side.SELL).take_profit =
      2 * ((RiskManager.calculate_stop_loss entry volatility atr Side.SELL).stop_loss - entry)) := by
  constructor <;> (simp [RiskManager.calculate_stop_loss]; ring)

/-- Claim C6: when one price breaches both the stop-loss and the take-profit
condition of an open position, `RiskManagement.check_position` closes with the
stop-loss reason on both sides (the stop test comes first; a zero price is
treated by the code as a missing price and is excluded). -/
theorem check_position_stop_priority (sl tp price : ℚ) (hp : price ≠ 0) :
    (price ≤ sl → tp ≤ price →
      RiskManagement.check_position ⟨Side.BUY, sl, tp, some price⟩ =
        { should_close := true, reason := some "Stop Loss atingido" }) ∧
    (sl ≤ price → price ≤ tp →
      RiskManagement.check_position ⟨Side.SELL, sl, tp, some price⟩ =
        { should_close := true, reason := some "Stop Loss atingido" }) := by
  constructor <;> intro h1 h2 <;>
    simp [RiskManagement.check_position, hp, h1, h2]

/-- Witness for C6: a price jump to 4 breaches both levels of a BUY position
with stop 5 / target 3 and of a SELL position with stop 3 / target 5; both
close via the stop loss. -/
theorem check_position_stop_priority_witness :
    (RiskManagement.check_position ⟨Side.BUY, 5, 3, some 4⟩ =
      { should_close := true, reason := some "Stop Loss atingido" }) ∧
    (RiskManagement.check_position ⟨Side.SELL, 3, 5, some 4⟩ =
      { should_close := true, reason := some "Stop Loss atingido" }) :=
  ⟨(check_position_stop_priority 5 3 4 (by norm_num)).1 (by norm_num) (by norm_num),
   (check_position_stop_priority 3 5 4 (by norm_num)).2 (by norm_num) (by norm_num)⟩

/-- Claim C10: right after `PortfolioManager.__init__`, the positions dict
already holds a placeholder `'BTC'` entry with amount `0.0` and status
`'open'`, and `get_portfolio_status` reports `position_count = 1`. -/
theorem init_portfolio_status_btc_placeholder :
    (PortfolioManager.get_portfolio_status PortfolioManager.init).position_count = 1 ∧
    PortfolioManager.lookupPos
        (PortfolioManager.get_portfolio_status PortfolioManager.init).positions "BTC" =
      some PortfolioManager.init_btc_position ∧
    PortfolioManager.init_btc_position.amount = 0 ∧
    PortfolioManager.init_btc_position.status = "open" := by
  refine ⟨rfl, ?_, rfl, rfl⟩
  decide

/-- Appending one result and popping the front when the length exceeds 5 is,
for a list within capacity, an eviction exactly at capacity 5. -/
theorem append_pop_front_eq_evict (l : List ℚ) (r : ℚ) (hcap : l.length ≤ 5) :
    (if 5 < (l ++ [r]).length then (l ++ [r]).tail else l ++ [r]) =
      (if l.length = 5 then l.tail ++ [r] else l ++ [r]) := by
  rcases l with _ | ⟨a, t⟩
  · simp
  · have hlen1 : (a :: t).length = t.length + 1 := by simp
    have hlen2 : ((a :: t) ++ [r]).length = t.length + 2 := by simp
    by_cases h5 : (a :: t).length = 5
    · rw [if_pos (by omega : 5 < ((a :: t) ++ [r]).length), if_pos h5]
      simp
    · rw [if_neg (by omega : ¬ 5 < ((a :: t) ++ [r]).length), if_neg h5]

/-- Claim C2: outcome bookkeeping of `TradingBot.update_pattern_memory`.
For a pattern with no recorded outcomes, the sequence `+1, -1, -1` leaves
`wins = 1`, `losses = 2`, `consecutive_losses = 2`; and in general one call
increments `wins` and resets the consecutive-loss counter on `profit > 0`,
otherwise increments `losses` and the counter, and pushes the profit onto the
recent-outcomes list, evicting the oldest entry when it is at capacity 5. -/
theorem update_pattern_memory_bookkeeping (mem : TradingBot.PatternMemory)
    (p : Finset String) (st : TradingBot.PatternStats) (r : ℚ)
    (hnew : mem p = none) (hcap : st.last_results.length ≤ 5) :
    ((TradingBot.update_pattern_memory (TradingBot.update_pattern_memory
        (TradingBot.update_pattern_memory mem p 1) p (-1)) p (-1)) p =
      some { wins := 1, losses := 2, consecutive_losses := 2,
             last_results := [1, -1, -1] }) ∧
    (TradingBot.record_result st r =
      { wins := if 0 < r then st.wins + 1 else st.wins
        losses := if 0 < r then st.losses else st.losses + 1
        consecutive_losses := if 0 < r then 0 else st.consecutive_losses + 1
        last_results :=
          if st.last_results.length = 5 then st.last_results.tail ++ [r]
          else st.last_results ++ [r] }) := by
  constructor
  · simp [TradingBot.update_pattern_memory, hnew]
    decide
  · rw [← append_pop_front_eq_evict st.last_results r hcap]
    unfold TradingBot.record_result
    by_cases hr : 0 < r <;> simp [hr]

/-- Witness for C2: the `+1, -1, -1` sequence on the empty pattern memory. -/
theorem update_pattern_memory_bookkeeping_witness :
    (TradingBot.update_pattern_memory (TradingBot.update_pattern_memory
        (TradingBot.update_pattern_memory TradingBot.empty_pattern_memory ∅ 1) ∅ (-1)) ∅ (-1)) ∅ =
      some { wins := 1, losses := 2, consecutive_losses := 2,
             last_results := [1, -1, -1] } :=
  (update_pattern_memory_bookkeeping TradingBot.empty_pattern_memory ∅
    TradingBot.pattern_memory_init_stats 1 rfl (by decide)).1

/-- One `record_result` call grows `wins + losses` by exactly one. -/
theorem record_result_total (st : TradingBot.PatternStats) (r : ℚ) :
    (TradingBot.record_result st r).wins + (TradingBot.record_result st r).losses =
      st.wins + st.losses + 1 := by
  by_cases hr : 0 < r <;> simp [TradingBot.record_result, hr] <;> omega

/-- Closed form for the length of `last_results` after one `record_result`. -/
theorem record_result_len (st : TradingBot.PatternStats) (r : ℚ) :
    (TradingBot.record_result st r).last_results.length =
      min (st.last_results.length + 1) (max st.last_results.length 5) := by
  by_cases hr : 0 < r <;>
    by_cases h : 5 < st.last_results.length + 1 <;>
      simp [TradingBot.record_result, hr, h] <;> omega

/-- Folding a list of outcomes into the pattern memory adds its length to
`wins + losses` of the touched entry and keeps `last_results` within
capacity. -/
theorem record_outcomes_inv (p : Finset String) (rs : List ℚ) :
    ∀ mem : TradingBot.PatternMemory,
      ((mem p).getD TradingBot.pattern_memory_init_stats).last_results.length ≤ 5 →
      ((((TradingBot.record_outcomes mem p rs) p).getD TradingBot.pattern_memory_init_stats).wins +
          (((TradingBot.record_outcomes mem p rs) p).getD TradingBot.pattern_memory_init_stats).losses =
        ((mem p).getD TradingBot.pattern_memory_init_stats).wins +
          ((mem p).getD TradingBot.pattern_memory_init_stats).losses + rs.length) ∧
      (((TradingBot.record_outcomes mem p rs) p).getD
          TradingBot.pattern_memory_init_stats).last_results.length ≤ 5 := by
  induction rs with
  | nil => intro mem hcap; exact ⟨by simp [TradingBot.record_outcomes], hcap⟩
  | cons r rs ih =>
      intro mem hcap
      have hstep : ((TradingBot.update_pattern_memory mem p r) p).getD
          TradingBot.pattern_memory_init_stats =
          TradingBot.record_result ((mem p).getD TradingBot.pattern_memory_init_stats) r := by
        simp [TradingBot.update_pattern_memory]
      have hcap' : (((TradingBot.update_pattern_memory mem p r) p).getD
          TradingBot.pattern_memory_init_stats).last_results.length ≤ 5 := by
        rw [hstep, record_result_len]; omega
      have hrec : TradingBot.record_outcomes mem p (r :: rs) =
          TradingBot.record_outcomes (TradingBot.update_pattern_memory mem p r) p rs := rfl
      obtain ⟨h1, h2⟩ := ih (TradingBot.update_pattern_memory mem p r) hcap'
      rw [hrec]
      refine ⟨?_, h2⟩
      rw [h1, hstep, record_result_total]
      simp
      omega

/-- Claim C3: the pattern-stats invariant. The zero-initialized stats satisfy
`wins + losses = 0` and hold at most 5 recent outcomes; each `record_result`
call grows `wins + losses` by exactly one and keeps the recent-outcomes list
within capacity 5; hence after recording any sequence of outcomes for a
pattern, its entry satisfies `wins + losses = number of recorded outcomes` and
`last_results.length ≤ 5`. -/
theorem pattern_stats_invariant (p : Finset String) (rs : List ℚ)
    (st : TradingBot.PatternStats) (r : ℚ) :
    (TradingBot.pattern_memory_init_stats.wins +
        TradingBot.pattern_memory_init_stats.losses = 0 ∧
      TradingBot.pattern_memory_init_stats.last_results.length ≤ 5) ∧
    ((TradingBot.record_result st r).wins + (TradingBot.record_result st r).losses =
      st.wins + st.losses + 1) ∧
    ((TradingBot.record_result st r).last_results.length =
      min (st.last_results.length + 1) (max st.last_results.length 5)) ∧
    (∀ s : TradingBot.PatternStats,
      (TradingBot.record_outcomes TradingBot.empty_pattern_memory p rs) p = some s →
        s.wins + s.losses = rs.length ∧ s.last_results.length ≤ 5) := by
  refine ⟨⟨rfl, by decide⟩, record_result_total st r, record_result_len st r, ?_⟩
  intro s hs
  have h := record_outcomes_inv p rs TradingBot.empty_pattern_memory
    (by simp [TradingBot.empty_pattern_memory, TradingBot.pattern_memory_init_stats])
  rw [hs] at h
  simpa [TradingBot.empty_pattern_memory, TradingBot.pattern_memory_init_stats] using h

/-- Witness for C3 after recording the outcomes `+1, -1` for one pattern. -/
theorem pattern_stats_invariant_witness :
    (⟨1, 1, 1, [1, -1]⟩ : TradingBot.PatternStats).wins +
        (⟨1, 1, 1, [1, -1]⟩ : TradingBot.PatternStats).losses = 2 ∧
      (⟨1, 1, 1, [1, -1]⟩ : TradingBot.PatternStats).last_results.length ≤ 5 :=
  (pattern_stats_invariant ∅ [1, -1] TradingBot.pattern_memory_init_stats 0).2.2.2
    ⟨1, 1, 1, [1, -1]⟩ (by decide)

/-- Claim C1: characterization of `TradingBot.should_execute_trade`. The gate
approves exactly when the signal list has at least `min_signals` entries and
the canonicalized pattern either has no entry in the memory, or has fewer than
3 recorded outcomes, or has win rate at least `min_win_rate` together with
fewer than 2 consecutive losses. -/
theorem should_execute_trade_spec (mem : TradingBot.PatternMemory)
    (signals : List String) :
    TradingBot.should_execute_trade mem signals = true ↔
      (TradingBot.min_signals ≤ signals.length ∧
        ∀ stats : TradingBot.PatternStats,
          mem (TradingBot.identify_pattern signals) = some stats →
            3 ≤ stats.wins + stats.losses →
              (TradingBot.min_win_rate ≤
                  (stats.wins : ℚ) / ((stats.wins + stats.losses : Nat) : ℚ) ∧
                stats.consecutive_losses < 2)) := by
  unfold TradingBot.should_execute_trade
  by_cases hlen : signals.length < TradingBot.min_signals
  · simp only [if_pos hlen, Bool.false_eq_true, false_iff, not_and]
    intro h
    exact absurd hlen (not_lt.mpr h)
  · rw [if_neg hlen]
    have hlen' : TradingBot.min_signals ≤ signals.length := not_lt.mp hlen
    rcases hmem : mem (TradingBot.identify_pattern signals) with _ | stats
    · simp only [hmem, true_iff]
      exact ⟨hlen', fun stats h => by simp at h⟩
    · simp only [hmem]
      by_cases htot : 3 ≤ stats.wins + stats.losses
      · rw [if_pos htot]
        by_cases hwr : (stats.wins : ℚ) / ((stats.wins + stats.losses : Nat) : ℚ) <
            TradingBot.min_win_rate
        · rw [if_pos hwr]
          simp only [Bool.false_eq_true, false_iff, not_and]
          intro _ h
          have := (h stats rfl htot).1
          exact absurd hwr (not_lt.mpr this)
        · rw [if_neg hwr]
          by_cases hcl : 2 ≤ stats.consecutive_losses
          · rw [if_pos hcl]
            simp only [Bool.false_eq_true, false_iff, not_and]
            intro _ h
            have := (h stats rfl htot).2
            omega
          · rw [if_neg hcl]
            simp only [true_iff]
            refine ⟨hlen', fun s hs _ => ?_⟩
            obtain rfl : stats = s := by injection hs
            exact ⟨not_lt.mp hwr, not_le.mp hcl⟩
      · rw [if_neg htot]
        simp only [true_iff]
        refine ⟨hlen', fun s hs h3 => ?_⟩
        obtain rfl : stats = s := by injection hs
        exact absurd h3 htot

/-- Counterexample to C7: the code does not return 0 for a negative capital.
With the risk metrics in their initial state, `calculate_position_size` on
capital `-100000` (zero signal strength, volatility and exposure) returns
`-2000` — the `capital * 0.02` cap — not `0`. -/
theorem calculate_position_size_negative_capital :
    RiskManager.calculate_position_size 0 (-100000) 0 0 0 = -2000 ∧
      ¬ RiskManager.calculate_position_size 0 (-100000) 0 0 0 = 0 := by
  have harg : RiskManager.calculate_position_size 0 (-100000) 0 0 0 =
      RiskManager.quantize_round_down (-2000) := by
    unfold RiskManager.calculate_position_size
    norm_num [RiskManager.max_total_risk, RiskManager.max_position_size,
      min_def, max_def]
  have hval : RiskManager.quantize_round_down (-2000) = -2000 := by
    unfold RiskManager.quantize_round_down
    rw [if_neg (by norm_num),
      show ((-2000 : ℚ) * 100000) = ((-200000000 : ℤ) : ℚ) by norm_num,
      Int.ceil_intCast]
    norm_num
  rw [harg, hval]
  norm_num

/-- Claim C7 (amended): with the win-rate metric at its initial value 0 (its
multiplier is then the neutral 1) and a nonnegative capital,
`calculate_position_size` returns exactly
`capital * 0.01 * (0.5 + |signalStrength|) * clamp(1 - 2*volatility, 0.5, 1)
 * clamp(1 - exposure/maxTotalRisk, 0, 1)`, capped at
`capital * maxPositionSize` and rounded down to the `0.00001` increment. -/
theorem calculate_position_size_formula (capital s v e : ℚ) (hc : 0 ≤ capital) :
    RiskManager.calculate_position_size 0 capital s v e =
      (⌊min (capital * (1 / 100) * (1 / 2 + |s|) *
            RiskManager.clampQ (1 / 2) 1 (1 - 2 * v) *
            RiskManager.clampQ 0 1 (1 - e / RiskManager.max_total_risk))
          (capital * RiskManager.max_position_size) * 100000⌋ : ℚ) / 100000 := by
  have h2v : 1 - v * 2 = 1 - 2 * v := by ring
  have hP : 0 ≤ capital * (1 / 100) * (1 / 2 + |s|) *
      max (1 / 2) (min 1 (1 - v * 2)) *
      max 0 (min 1 (1 - e / RiskManager.max_total_risk)) := by
    have h1 : (0 : ℚ) ≤ capital * (1 / 100) := mul_nonneg hc (by norm_num)
    have h2 : (0 : ℚ) ≤ 1 / 2 + |s| := by positivity
    have h3 : (0 : ℚ) ≤ max (1 / 2) (min 1 (1 - v * 2)) :=
      le_trans (by norm_num) (le_max_left _ _)
    have h4 : (0 : ℚ) ≤ max 0 (min 1 (1 - e / RiskManager.max_total_risk)) :=
      le_max_left _ _
    exact mul_nonneg (mul_nonneg (mul_nonneg h1 h2) h3) h4
  have hC : 0 ≤ capital * RiskManager.max_position_size :=
    mul_nonneg hc (by norm_num [RiskManager.max_position_size])
  unfold RiskManager.calculate_position_size RiskManager.quantize_round_down
    RiskManager.clampQ
  simp only [lt_self_iff_false, if_false, mul_one]
  rw [if_pos (le_min hP hC), h2v]

/-- Witness for the amended C7 at the spec's scenario
(capital 10000, signal strength 0.8, volatility 0.01, zero exposure). -/
theorem calculate_position_size_formula_witness :
    RiskManager.calculate_position_size 0 10000 (4 / 5) (1 / 100) 0 =
      (⌊min (10000 * (1 / 100) * (1 / 2 + |(4 / 5 : ℚ)|) *
            RiskManager.clampQ (1 / 2) 1 (1 - 2 * (1 / 100)) *
            RiskManager.clampQ 0 1 (1 - 0 / RiskManager.max_total_risk))
          (10000 * RiskManager.max_position_size) * 100000⌋ : ℚ) / 100000 :=
  calculate_position_size_formula 10000 (4 / 5) (1 / 100) 0 (by norm_num)

/-- Dict write followed by lookup of the same key returns the written value. -/
theorem lookupPos_dictInsert (d : List (String × PortfolioManager.PMPosition))
    (k : String) (v : PortfolioManager.PMPosition) :
    PortfolioManager.lookupPos (PortfolioManager.dictInsert d k v) k = some v := by
  induction d with
  | nil => simp [PortfolioManager.dictInsert, PortfolioManager.lookupPos]
  | cons e es ih =>
      unfold PortfolioManager.dictInsert
      by_cases h : e.1 = k
      · simp [PortfolioManager.lookupPos, h]
      · have hb : (e.1 == k) = false := beq_eq_false_iff_ne.mpr h
        rw [if_neg h]
        unfold PortfolioManager.lookupPos at ih ⊢
        simp only [List.find?_cons, hb]
        exact ih

/-- Counterexample to C8: `PortfolioManager.add_position` does not reject a
non-positive quantity. On the freshly constructed manager after a balance
deposit of 1000, adding `'ETH'` with amount `-1` at entry price 100 returns
`True` and records the position. -/
theorem add_position_negative_quantity_accepted :
    ((PortfolioManager.add_position
        (PortfolioManager.update_balance PortfolioManager.init 1000)
        "ETH" (-1) 100 "long" 1).2 = true) ∧
    (PortfolioManager.lookupPos
        (PortfolioManager.add_position
          (PortfolioManager.update_balance PortfolioManager.init 1000)
          "ETH" (-1) 100 "long" 1).1.positions "ETH" =
      some { amount := -1, entry_price := 100, current_price := 100, side := "long",
             leverage := 1, value := -100, unrealized_pnl := 0, realized_pnl := 0,
             status := "open" }) := by
  constructor
  · unfold PortfolioManager.add_position
    norm_num [PortfolioManager.update_balance, PortfolioManager.init]
  · unfold PortfolioManager.add_position
    norm_num [PortfolioManager.update_balance, PortfolioManager.init]
    exact lookupPos_dictInsert _ _ _

/-- Claim C8 (amended): `add_position` performs no quantity validation. When
the portfolio is below the three-position limit, the balance is positive, the
entry price is nonnegative and the leverage is within the limit, a request
with `amount ≤ 0` passes the size check (its notional is non-positive) and is
accepted: the call returns `True` and stores the non-positive position. With
the constructor's zero balance the size check raises `ZeroDivisionError`
instead, caught to `return False` with the positions unchanged. -/
theorem add_position_no_quantity_validation (pm : PortfolioManager.State)
    (symbol side : String) (amount entry_price leverage : ℚ)
    (hlen : pm.positions.length < 3) (hbal : 0 < pm.balance)
    (hqty : amount ≤ 0) (hprice : 0 ≤ entry_price) (hlev : leverage ≤ 1) :
    ((PortfolioManager.add_position pm symbol amount entry_price side leverage).2 = true) ∧
    (PortfolioManager.lookupPos
        (PortfolioManager.add_position pm symbol amount entry_price side leverage).1.positions
        symbol =
      some { amount := amount, entry_price := entry_price, current_price := entry_price,
             side := side, leverage := leverage, value := amount * entry_price,
             unrealized_pnl := 0, realized_pnl := 0, status := "open" }) ∧
    ((PortfolioManager.add_position { pm with balance := 0 }
        symbol amount entry_price side leverage) = ({ pm with balance := 0 }, false)) := by
  have hval : amount * entry_price ≤ 0 :=
    mul_nonpos_iff.mpr (Or.inr ⟨hqty, hprice⟩)
  have hdiv : amount * entry_price / pm.balance ≤ 0 :=
    div_nonpos_iff.mpr (Or.inr ⟨hval, le_of_lt hbal⟩)
  have hsize : ¬ (1 / 10 : ℚ) < amount * entry_price / pm.balance :=
    not_lt.mpr (le_trans hdiv (by norm_num))
  unfold PortfolioManager.add_position
  rw [if_neg (not_le.mpr hlen), if_neg (ne_of_gt hbal), if_neg hsize,
    if_neg (not_lt.mpr hlev)]
  refine ⟨rfl, lookupPos_dictInsert _ _ _, ?_⟩
  rw [if_neg (show ¬ 3 ≤ ({ pm with balance := 0 } : PortfolioManager.State).positions.length
    from not_le.mpr hlen)]
  rw [if_pos rfl]

/-- Witness for the amended C8: a zero-quantity request on a funded manager is
accepted and recorded. -/
theorem add_position_no_quantity_validation_witness :
    ((PortfolioManager.add_position
        (PortfolioManager.update_balance PortfolioManager.init 500)
        "XRP" 0 3 "short" 1).2 = true) ∧
    (PortfolioManager.lookupPos
        (PortfolioManager.add_position
          (PortfolioManager.update_balance PortfolioManager.init 500)
          "XRP" 0 3 "short" 1).1.positions "XRP" =
      some { amount := 0, entry_price := 3, current_price := 3, side := "short",
             leverage := 1, value := (0 : ℚ) * 3, unrealized_pnl := 0,
             realized_pnl := 0, status := "open" }) ∧
    ((PortfolioManager.add_position
        { PortfolioManager.update_balance PortfolioManager.init 500 with balance := 0 }
        "XRP" 0 3 "short" 1) =
      ({ PortfolioManager.update_balance PortfolioManager.init 500 with balance := 0 },
        false)) :=
  add_position_no_quantity_validation
    (PortfolioManager.update_balance PortfolioManager.init 500) "XRP" "short" 0 3 1
    (by simp [PortfolioManager.update_balance, PortfolioManager.init])
    (by norm_num [PortfolioManager.update_balance, PortfolioManager.init])
    le_rfl (by norm_num) le_rfl

/-- Counterexample to C9: a price tick for a symbol with no open position is
not a no-op for `PortfolioManager.update_positions`. On the freshly
constructed manager (which holds no `'ETH'` entry), a tick `{'ETH': 100}`
creates a placeholder `'ETH'` position, so the state changes. -/
theorem update_positions_creates_unknown_symbol :
    (PortfolioManager.lookupPos PortfolioManager.init.positions "ETH" = none) ∧
    (PortfolioManager.lookupPos
        (PortfolioManager.update_positions PortfolioManager.init [("ETH", 100)]).positions
        "ETH" =
      some (PortfolioManager.placeholder_position 100 100)) ∧
    PortfolioManager.update_positions PortfolioManager.init [("ETH", 100)] ≠
      PortfolioManager.init := by
  have hbe : ¬ ("BTC" = "ETH") := by decide
  have hbeq : ("BTC" == "ETH") = false := by decide
  have h1 : PortfolioManager.lookupPos PortfolioManager.init.positions "ETH" = none := by
    decide
  have h2 : PortfolioManager.lookupPos
      (PortfolioManager.update_positions PortfolioManager.init [("ETH", 100)]).positions
      "ETH" = some (PortfolioManager.placeholder_position 100 100) := by
    unfold PortfolioManager.update_positions
    norm_num [hbe, hbeq, PortfolioManager.init, PortfolioManager.update_positions_step,
      PortfolioManager.update_portfolio_metrics, PortfolioManager.lookupPos,
      PortfolioManager.dictInsert, PortfolioManager.init_btc_position,
      PortfolioManager.placeholder_position, List.find?]
  refine ⟨h1, h2, ?_⟩
  intro h
  rw [h, h1] at h2
  exact Option.noConfusion h2

/-- Claim C9 (amended): the single-symbol updater
`PortfolioManager.update_position` is a no-op for a symbol with no open
position: the whole manager state is returned unchanged. (The bulk updater
`update_positions` instead creates a placeholder entry for unknown symbols.) -/
theorem update_position_unknown_symbol_noop (pm : PortfolioManager.State)
    (symbol : String) (price : ℚ)
    (h : PortfolioManager.lookupPos pm.positions symbol = none) :
    PortfolioManager.update_position pm symbol price = pm := by
  unfold PortfolioManager.update_position
  rw [h]

/-- Witness for the amended C9: an `'ETH'` tick on the freshly constructed
manager leaves the state unchanged under `update_position`. -/
theorem update_position_unknown_symbol_noop_witness :
    PortfolioManager.update_position PortfolioManager.init "ETH" 50 =
      PortfolioManager.init :=
  update_position_unknown_symbol_noop PortfolioManager.init "ETH" 50 (by decide)

/-- Witness for C1: three fresh signals on an empty pattern memory are
approved. -/
theorem should_execute_trade_spec_witness :
    TradingBot.should_execute_trade TradingBot.empty_pattern_memory
      ["MACD_POSITIVO", "TENDENCIA_ALTA", "VOLUME_ALTO"] = true :=
  (should_execute_trade_spec TradingBot.empty_pattern_memory
    ["MACD_POSITIVO", "TENDENCIA_ALTA", "VOLUME_ALTO"]).mpr
    ⟨by decide, fun stats hs => Option.noConfusion hs⟩
